import Mathlib

set_option maxRecDepth 10000

/-!
Shallow embedding of the tempera-pulse weather system: the
`seed-weather-data` edge function (Indian-cities version,
`supabase/functions/seed-weather-data/index.ts`) and the dashboard fetch
handlers (`src/components/WeatherDashboard.tsx`).

Conventions of the embedding:
* JS numbers are idealized as exact rationals where the source only does
  rational arithmetic and comparisons (profiles, alert thresholds,
  confidence), and as real numbers where `Math.sin` / `Math.PI` enter.
* `Math.random()` draws are oracle parameters: each row builder takes a
  function from a draw index to the value of the corresponding
  `Math.random()` call, in source order.
* `Number(x.toFixed(2))` is idealized as rounding to the nearest multiple
  of 1/100 (`round2`), and `toFixed(1)` on nonnegative rationals as
  rounding to the nearest tenth before decimal rendering (`toFixed1`).
* Timestamps are epoch milliseconds (`Date.now()` is the parameter `now`),
  exactly as the source computes them before `toISOString`.
-/

namespace TemperaPulse

/-- Climate profile record: the value type of the `climateProfiles` map in
the seed function (lines 199-211). Field values in the source are the
rational constants embedded below. -/
structure ClimateProfile where
  baseTemp : ℚ
  tempRange : ℚ
  humidityMin : ℚ
  humidityMax : ℚ
  rainProbability : ℚ
  windMin : ℚ
  windMax : ℚ
deriving DecidableEq

/-- Profile of "Mumbai" (line 206). -/
def mumbaiProfile : ClimateProfile := ⟨30, 5, 65, 85, 0.25, 10, 35⟩

/-- Profile of "Pune" (line 207); also the fallback profile. -/
def puneProfile : ClimateProfile := ⟨28, 7, 45, 70, 0.15, 8, 25⟩

/-- Profile of "Alandi" (line 208). -/
def alandiProfile : ClimateProfile := ⟨27, 6, 50, 75, 0.18, 7, 22⟩

/-- Profile of "Sangamner" (line 209). -/
def sangamnerProfile : ClimateProfile := ⟨29, 8, 40, 65, 0.20, 12, 30⟩

/-- Profile of "Nagpur" (line 210). -/
def nagpurProfile : ClimateProfile := ⟨32, 9, 35, 60, 0.12, 5, 20⟩

/-- The hard-coded `climateProfiles` map (lines 199-211), as an
association list keyed by station name. -/
def climateProfiles : List (String × ClimateProfile) :=
  [("Mumbai", mumbaiProfile), ("Pune", puneProfile), ("Alandi", alandiProfile),
   ("Sangamner", sangamnerProfile), ("Nagpur", nagpurProfile)]

/-- Profile lookup with fallback:
`climateProfiles[station.name] || climateProfiles["Pune"]` (line 214). -/
def profileFor (name : String) : ClimateProfile :=
  (climateProfiles.lookup name).getD puneProfile

/-- A row of the `weather_stations` table as returned by the insert's
`.select()` (id is database-generated; name and location as inserted). -/
structure StationRow where
  id : String
  name : String
  location : String
deriving DecidableEq

/-- The hard-coded Indian station list (lines 178-184), with the
database-generated ids abstracted as a parameter. -/
def seedStations (ids : Fin 5 → String) : List StationRow :=
  [⟨ids 0, "Mumbai", "Maharashtra, Western India"⟩,
   ⟨ids 1, "Pune", "Maharashtra, Western India"⟩,
   ⟨ids 2, "Alandi", "Maharashtra, Western India"⟩,
   ⟨ids 3, "Sangamner", "Maharashtra, Central India"⟩,
   ⟨ids 4, "Nagpur", "Maharashtra, Central India"⟩]

/-- JS `Number.prototype.toFixed(1)` on a nonnegative rational, idealized
as round-to-nearest on the exact value, then decimal rendering with one
fractional digit. -/
def toFixed1 (q : ℚ) : String :=
  let n : ℤ := round (10 * q)
  toString (n / 10) ++ "." ++ toString (n % 10)

/-- A row pushed onto the `alerts` array (and inserted into the
`weather_alerts` table). -/
structure WeatherAlert where
  station_id : String
  alert_type : String
  severity : String
  message : String
  is_active : Bool
deriving DecidableEq

/-- The heat-wave alert message template (line 291):
`Heat wave conditions expected. Temperature may reach ${(avgTemp + 3).toFixed(1)}Â°C. ...`
(the stray `Â` is present verbatim in the source file). -/
def heatWaveMessage (peak : ℚ) : String :=
  "Heat wave conditions expected. Temperature may reach " ++ toFixed1 peak ++
    "Â°C. Stay hydrated and avoid direct sunlight."

/-- Alert generation for one station (lines 280-325). `humidityCoin` is
the `Math.random()` draw of the high-humidity branch (line 317); the other
three branches are deterministic in the profile. The four pushes happen in
source order: heat wave, heavy rainfall, strong wind, high humidity. -/
def alertsFor (sid : String) (p : ClimateProfile) (humidityCoin : ℚ) :
    List WeatherAlert :=
  let avgTemp := p.baseTemp
  (if 38 < avgTemp then
    [{ station_id := sid
       alert_type := "Heat Wave Warning"
       severity := if 42 < avgTemp then "extreme" else "high"
       message := heatWaveMessage (avgTemp + 3)
       is_active := true }]
   else []) ++
  (if 0.22 < p.rainProbability then
    [{ station_id := sid
       alert_type := "Heavy Rainfall Alert"
       severity := "medium"
       message := "Heavy rainfall expected. Possibility of waterlogging in low-lying areas. Take necessary precautions."
       is_active := true }]
   else []) ++
  (if 30 < p.windMax then
    [{ station_id := sid
       alert_type := "Strong Wind Advisory"
       severity := "medium"
       message := "Strong winds expected with speeds up to " ++ toString p.windMax ++ " km/h. Secure loose objects."
       is_active := true }]
   else []) ++
  (if 75 < p.humidityMax ∧ 0.5 < humidityCoin then
    [{ station_id := sid
       alert_type := "High Humidity Alert"
       severity := "low"
       message := "High humidity levels expected (" ++ toString p.humidityMax ++ "%). Uncomfortable weather conditions likely."
       is_active := true }]
   else [])

/-- Day indices of the historical loop `for (let day = 7; day >= 0; day--)`
(line 217), in iteration order: 7, 6, ..., 0. -/
def dayList : List ℕ := (List.range 8).reverse

/-- Hour offsets of the prediction loop
`for (let hour = 0; hour < 24; hour += 6)` (line 253). -/
def predictionHours : List ℕ := [0, 6, 12, 18]

/-- Epoch-millisecond timestamp of a historical observation (line 219):
`Date.now() - (day * 24 + (23 - hour)) * 3600000`. -/
def obsTimestamp (now : ℤ) (day hour : ℕ) : ℤ :=
  now - ((day : ℤ) * 24 + (23 - (hour : ℤ))) * 3600000

/-- Epoch-millisecond timestamp of a prediction (line 254):
`Date.now() + (day * 24 + hour) * 3600000`. -/
def predTimestamp (now : ℤ) (day hour : ℕ) : ℤ :=
  now + ((day : ℤ) * 24 + (hour : ℤ)) * 3600000

end TemperaPulse

namespace TemperaPulse

noncomputable section

/-- The diurnal factor `Math.sin((hour - 6) / 24 * Math.PI * 2)`
(lines 222 and 258), idealized over the reals. -/
def hourFactor (hour : ℕ) : ℝ :=
  Real.sin (((hour : ℝ) - 6) / 24 * Real.pi * 2)

/-- JS `Number(x.toFixed(2))`, idealized as rounding to the nearest
multiple of 1/100. -/
def round2 (x : ℝ) : ℝ := (round (100 * x) : ℤ) / 100

/-- A row pushed onto the `weatherData` array (lines 239-247). -/
structure Observation where
  station_id : String
  timestampMs : ℤ
  temperature : ℝ
  humidity : ℝ
  precipitation : ℝ
  wind_speed : ℝ
  pressure : ℝ

/-- The `temp` local of line 223:
`profile.baseTemp + (hourFactor * profile.tempRange) + (Math.random() - 0.5) * 2`. -/
def rawTemp (p : ClimateProfile) (hour : ℕ) (r : ℝ) : ℝ :=
  (p.baseTemp : ℝ) + hourFactor hour * (p.tempRange : ℝ) + (r - 0.5) * 2

/-- The `humidityBase` local (lines 226 and 261):
`humidity.min + (humidity.max - humidity.min) * (1 - (hourFactor + 1) / 2)`. -/
def humidityBase (p : ClimateProfile) (hour : ℕ) : ℝ :=
  (p.humidityMin : ℝ) +
    ((p.humidityMax : ℝ) - (p.humidityMin : ℝ)) * (1 - (hourFactor hour + 1) / 2)

/-- The `humidity` local of line 227: `humidityBase + (Math.random() - 0.5) * 10`. -/
def rawHumidity (p : ClimateProfile) (hour : ℕ) (r : ℝ) : ℝ :=
  humidityBase p hour + (r - 0.5) * 10

/-- The `precipitation` local of line 230:
`Math.random() < profile.rainProbability ? (Math.random() * 15 + 2) : 0`. -/
def rawPrecipitation (p : ClimateProfile) (rCoin rAmt : ℝ) : ℝ :=
  if rCoin < (p.rainProbability : ℝ) then rAmt * 15 + 2 else 0

/-- The `windSpeed` local of lines 233-234:
`Math.max(windMin + (windMax - windMin) * Math.random() + (Math.random() - 0.5) * 5, 0)`. -/
def rawWindSpeed (p : ClimateProfile) (rBase rNoise : ℝ) : ℝ :=
  max ((p.windMin : ℝ) + ((p.windMax : ℝ) - (p.windMin : ℝ)) * rBase +
        (rNoise - 0.5) * 5) 0

/-- The `pressure` local of line 237:
`1010 + Math.sin(day / 7 * Math.PI) * 8 + (Math.random() - 0.5) * 5`. -/
def rawPressure (day : ℕ) (r : ℝ) : ℝ :=
  1010 + Real.sin ((day : ℝ) / 7 * Real.pi) * 8 + (r - 0.5) * 5

/-- One historical observation row (lines 219-247). `r` maps draw indices
to the `Math.random()` values of that loop body, in source order:
0 temperature noise, 1 humidity noise, 2 rain coin, 3 rain amount,
4 wind base, 5 wind noise, 6 pressure noise. -/
def mkObservation (sid : String) (now : ℤ) (p : ClimateProfile)
    (day hour : ℕ) (r : ℕ → ℝ) : Observation :=
  { station_id := sid
    timestampMs := obsTimestamp now day hour
    temperature := round2 (rawTemp p hour (r 0))
    humidity := round2 (max 20 (min 95 (rawHumidity p hour (r 1))))
    precipitation := round2 (rawPrecipitation p (r 2) (r 3))
    wind_speed := round2 (rawWindSpeed p (r 4) (r 5))
    pressure := round2 (rawPressure day (r 6)) }

/-- The historical loop for one station (lines 217-249): day 7 down to 0,
hour 0 to 23, appending one observation per slot. `ρ day hour` is the draw
oracle of that slot's loop body. -/
def historicalObs (sid : String) (now : ℤ) (p : ClimateProfile)
    (ρ : ℕ → ℕ → ℕ → ℝ) : List Observation :=
  dayList.flatMap fun day =>
    (List.range 24).map fun hour => mkObservation sid now p day hour (ρ day hour)

/-- The full historical generation of the seed run (line 213's station
loop restricted to its observation part): stations in list order, each
contributing its historical series. The draw oracle is keyed by the
station id. -/
def seedObservations (stationsData : List StationRow) (now : ℤ)
    (ρ : String → ℕ → ℕ → ℕ → ℝ) : List Observation :=
  stationsData.flatMap fun st =>
    historicalObs st.id now (profileFor st.name) (ρ st.id)

/-- A row pushed onto the `predictions` array (lines 269-276). -/
structure Prediction where
  station_id : String
  predictionDateMs : ℤ
  predicted_temp : ℝ
  predicted_humidity : ℝ
  predicted_precipitation : ℝ
  confidence : ℝ

/-- The `predictedTemp` local of line 259:
`profile.baseTemp + (hourFactor * profile.tempRange) + trendFactor` with
`trendFactor = day * 0.5` (line 257). No random draw enters. -/
def rawPredictedTemp (p : ClimateProfile) (day hour : ℕ) : ℝ :=
  (p.baseTemp : ℝ) + hourFactor hour * (p.tempRange : ℝ) + (day : ℝ) * 0.5

/-- The `predictedHumidity` local of line 262. -/
def rawPredictedHumidity (p : ClimateProfile) (hour : ℕ) (r : ℝ) : ℝ :=
  humidityBase p hour + (r - 0.5) * 8

/-- The `predictedPrecipitation` local of line 264:
`Math.random() < profile.rainProbability * 0.8 ? (Math.random() * 8 + 1) : 0`. -/
def rawPredictedPrecipitation (p : ClimateProfile) (rCoin rAmt : ℝ) : ℝ :=
  if rCoin < (p.rainProbability : ℝ) * 0.8 then rAmt * 8 + 1 else 0

/-- The `confidence` local of line 267:
`95 - (day * 3) + (Math.random() - 0.5) * 4`. -/
def rawConfidence (day : ℕ) (r : ℝ) : ℝ :=
  95 - (day : ℝ) * 3 + (r - 0.5) * 4

/-- One prediction row (lines 254-276). `r` maps draw indices to the
`Math.random()` values of that loop body, in source order: 0 humidity
noise, 1 rain coin, 2 rain amount, 3 confidence noise. -/
def mkPrediction (sid : String) (now : ℤ) (p : ClimateProfile)
    (day hour : ℕ) (r : ℕ → ℝ) : Prediction :=
  { station_id := sid
    predictionDateMs := predTimestamp now day hour
    predicted_temp := round2 (rawPredictedTemp p day hour)
    predicted_humidity := round2 (max 20 (min 95 (rawPredictedHumidity p hour (r 0))))
    predicted_precipitation := round2 (rawPredictedPrecipitation p (r 1) (r 2))
    confidence := round2 (max 75 (min 98 (rawConfidence day (r 3)))) }

/-- The prediction loop for one station (lines 252-278): day 0 to 4, hours
0, 6, 12, 18. -/
def predictionsFor (sid : String) (now : ℤ) (p : ClimateProfile)
    (ρ : ℕ → ℕ → ℕ → ℝ) : List Prediction :=
  (List.range 5).flatMap fun day =>
    predictionHours.map fun hour => mkPrediction sid now p day hour (ρ day hour)

end

/-- A station record as the dashboard reads it (`Station` interface in
WeatherDashboard.tsx, lines 11-15). -/
structure Station where
  id : String
  name : String
  location : String
deriving DecidableEq

/-- The latest observation as the dashboard reads it (`CurrentWeather`
interface, lines 17-24). Numeric payloads are idealized as rationals; the
handlers only store the record, never compute with it. -/
structure CurrentWeather where
  temperature : ℚ
  humidity : ℚ
  precipitation : ℚ
  wind_speed : ℚ
  pressure : ℚ
  timestamp : String
deriving DecidableEq

/-- The component state touched by the dashboard fetch handlers
(`useState` hooks, lines 27-31; `seeding` is untouched by the two fetches
and omitted). -/
structure DashState where
  stations : List Station
  selectedStation : String
  currentWeather : Option CurrentWeather
  loading : Bool
deriving DecidableEq

/-- Observable side effects of one handler run: `console.error` log lines
and toast notifications, in emission order. -/
structure Effects where
  logs : List String
  toasts : List String
deriving DecidableEq

/-- No side effects. -/
def noEffects : Effects := ⟨[], []⟩

/-- State/effect semantics of `loadStations` (WeatherDashboard.tsx, lines
65-84). The awaited query outcome is the input: `.ok data` when no error
was thrown, `.error e` when the query failed (the thrown error's message).
On success the station list is stored and, when nonempty, the first
station becomes selected; on failure the error is logged and a toast is
shown; the `finally` clause clears `loading` on both paths. -/
def loadStationsStep (result : Except String (List Station)) (s : DashState) :
    DashState × Effects :=
  match result with
  | .ok data =>
      ({ s with
          stations := data
          selectedStation :=
            match data with
            | [] => s.selectedStation
            | st :: _ => st.id
          loading := false },
       noEffects)
  | .error e =>
      ({ s with loading := false },
       { logs := ["Error loading stations: " ++ e]
         toasts := ["Failed to load weather stations"] })

/-- State/effect semantics of `loadCurrentWeather` (WeatherDashboard.tsx,
lines 86-101). On success the fetched row is stored; on failure the error
is only logged — the catch block shows no toast — and no state is set. -/
def loadCurrentWeatherStep (result : Except String CurrentWeather)
    (s : DashState) : DashState × Effects :=
  match result with
  | .ok data => ({ s with currentWeather := some data }, noEffects)
  | .error e =>
      (s, { logs := ["Error loading current weather: " ++ e], toasts := [] })

/-- The four tables of the schema. -/
inductive Table
  | weather_stations
  | weather_data
  | weather_predictions
  | weather_alerts
deriving DecidableEq

/-- A database operation of the seed handler, at the granularity the
delete/insert ordering claims need. -/
inductive SeedOp
  | deleteNeqId (t : Table) (excludedId : String)
  | insertRows (t : Table)
deriving DecidableEq

/-- Whether the operation is one of the bulk deletes. -/
def SeedOp.isDelete : SeedOp → Bool
  | .deleteNeqId _ _ => true
  | .insertRows _ => false

/-- Whether the operation is one of the inserts. -/
def SeedOp.isInsert : SeedOp → Bool
  | .deleteNeqId _ _ => false
  | .insertRows _ => true

/-- The placeholder id of the bulk deletes (lines 172-175). -/
def zeroUuid : String := "00000000-0000-0000-0000-000000000000"

/-- Straight-line database operation order of the seed handler: the four
bulk deletes (lines 172-175, order: alerts, predictions, data, stations),
the station insert (line 186-189), then the data, prediction and alert
inserts (lines 329, 335, 342). `alertsNonempty` reflects the
`alerts.length > 0` guard on the final insert (line 341). -/
def seedOps (alertsNonempty : Bool) : List SeedOp :=
  [.deleteNeqId .weather_alerts zeroUuid,
   .deleteNeqId .weather_predictions zeroUuid,
   .deleteNeqId .weather_data zeroUuid,
   .deleteNeqId .weather_stations zeroUuid,
   .insertRows .weather_stations,
   .insertRows .weather_data,
   .insertRows .weather_predictions] ++
  (if alertsNonempty then [.insertRows .weather_alerts] else [])

/-- A pre-existing table row, reduced to the columns the delete condition
can observe: its id and the station it belongs to. -/
structure DbRow where
  id : String
  station_id : String
deriving DecidableEq

/-- Effect of `.delete().neq('id', excluded)` on a table's rows: every row
whose id differs from `excluded` is removed; a row whose id equals
`excluded` survives. -/
def deleteNeq (excluded : String) (tbl : List DbRow) : List DbRow :=
  tbl.filter fun r => r.id == excluded

/-- Hour offsets `day * 24 + (23 - hour)` of the historical timestamps, in
emission order (day 7 down to 0, hour 0 to 23): the number of hours each
emitted observation lies before `now`. -/
def offsetsZ : List ℤ :=
  dayList.flatMap fun day : ℕ =>
    (List.range 24).map fun hour : ℕ => (day : ℤ) * 24 + (23 - (hour : ℤ))

/-! ## Helper lemmas -/

/-- Rounding to the nearest integer is monotone. -/
theorem round_mono_real {x y : ℝ} (h : x ≤ y) : round x ≤ round y := by
  rw [round_eq, round_eq]
  exact Int.floor_le_floor (by linarith)

/-- round2 is the identity on reals that are integers. -/
theorem round2_intCast (n : ℤ) : round2 ((n : ℝ)) = n := by
  unfold round2
  rw [show (100 : ℝ) * (n : ℝ) = ((100 * n : ℤ) : ℝ) by push_cast; ring,
    round_intCast]
  push_cast
  ring

/-- round2 respects integer lower bounds. -/
theorem le_round2 {x : ℝ} {n : ℤ} (h : (n : ℝ) ≤ x) : (n : ℝ) ≤ round2 x := by
  have h1 : ((100 * n : ℤ) : ℝ) ≤ 100 * x := by push_cast; linarith
  have h2 := round_mono_real h1
  rw [round_intCast] at h2
  unfold round2
  rw [le_div_iff₀ (by norm_num : (0 : ℝ) < 100)]
  have h3 : ((100 * n : ℤ) : ℝ) ≤ ((round (100 * x) : ℤ) : ℝ) := by
    exact_mod_cast h2
  push_cast at h3 ⊢
  linarith

/-- round2 respects integer upper bounds. -/
theorem round2_le {x : ℝ} {n : ℤ} (h : x ≤ (n : ℝ)) : round2 x ≤ (n : ℝ) := by
  have h1 : 100 * x ≤ ((100 * n : ℤ) : ℝ) := by push_cast; linarith
  have h2 := round_mono_real h1
  rw [round_intCast] at h2
  unfold round2
  rw [div_le_iff₀ (by norm_num : (0 : ℝ) < 100)]
  have h3 : ((round (100 * x) : ℤ) : ℝ) ≤ ((100 * n : ℤ) : ℝ) := by
    exact_mod_cast h2
  push_cast at h3 ⊢
  linarith

/-- Clamping to an integer interval, then rounding, lands in the interval. -/
theorem round2_clamp_mem {a b : ℤ} {x : ℝ} (hab : (a : ℝ) ≤ b) :
    (a : ℝ) ≤ round2 (max a (min (b : ℝ) x)) ∧
      round2 (max (a : ℝ) (min (b : ℝ) x)) ≤ b := by
  constructor
  · exact le_round2 (le_max_left _ _)
  · exact round2_le (max_le hab (min_le_left _ _))

/-- One station's historical series always has 8 × 24 = 192 rows. -/
theorem historicalObs_length (sid : String) (now : ℤ) (p : ClimateProfile)
    (ρ : ℕ → ℕ → ℕ → ℝ) : (historicalObs sid now p ρ).length = 192 := by
  simp [historicalObs, dayList, List.length_flatMap, Function.comp_def,
    List.sum_reverse]

/-- A member of the alert list whose type is "Heat Wave Warning" can only
come from the heat-wave branch: its guard held and the alert is exactly
the pushed record. -/
theorem heat_alert_characterization (sid : String) (p : ClimateProfile)
    (coin : ℚ) (a : WeatherAlert) (ha : a ∈ alertsFor sid p coin)
    (htype : a.alert_type = "Heat Wave Warning") :
    38 < p.baseTemp ∧
      a = ⟨sid, "Heat Wave Warning",
        if 42 < p.baseTemp then "extreme" else "high",
        heatWaveMessage (p.baseTemp + 3), true⟩ := by
  simp only [alertsFor, List.mem_append] at ha
  rcases ha with ((h | h) | h) | h
  · split at h
    · simp only [List.mem_singleton] at h
      subst h
      exact ⟨by assumption, rfl⟩
    · simp at h
  · split at h
    · simp only [List.mem_singleton] at h
      subst h
      simp at htype
    · simp at h
  · split at h
    · simp only [List.mem_singleton] at h
      subst h
      simp at htype
    · simp at h
  · split at h
    · simp only [List.mem_singleton] at h
      subst h
      simp at htype
    · simp at h

/-- When the heat-wave guard holds, the heat-wave record is in the alert
list. -/
theorem heat_alert_mem (sid : String) (p : ClimateProfile) (coin : ℚ)
    (h38 : 38 < p.baseTemp) :
    (⟨sid, "Heat Wave Warning",
      if 42 < p.baseTemp then "extreme" else "high",
      heatWaveMessage (p.baseTemp + 3), true⟩ : WeatherAlert) ∈
      alertsFor sid p coin := by
  simp only [alertsFor]
  refine List.mem_append.mpr (Or.inl (List.mem_append.mpr (Or.inl
    (List.mem_append.mpr (Or.inl ?_)))))
  rw [if_pos h38]
  exact List.mem_singleton.mpr rfl

/-- Lookup and fallback both yield a profile with baseTemp at most 32
(the maximum is Nagpur at 32). -/
theorem profileFor_baseTemp_le (name : String) :
    (profileFor name).baseTemp ≤ 32 := by
  unfold profileFor climateProfiles
  simp only [List.lookup]
  repeat' split
  all_goals decide

/-- A profile whose baseTemp is at most 32 never produces a heat-wave
alert. -/
theorem no_heat_alert_of_le (sid : String) (p : ClimateProfile) (coin : ℚ)
    (hb : p.baseTemp ≤ 32) :
    (alertsFor sid p coin).filter
      (fun a => a.alert_type == "Heat Wave Warning") = [] := by
  have h38 : ¬38 < p.baseTemp := by linarith
  simp only [alertsFor]
  rw [if_neg h38]
  simp only [List.nil_append, List.filter_append]
  split_ifs <;> rfl

/-! ## Claim theorems -/

/-- C1: for every station processed by the seed operation, a heat-wave
alert is pushed if and only if the station's profile has baseTemp > 38;
its severity is "extreme" if and only if baseTemp > 42 and "high"
otherwise; and its message text embeds baseTemp + 3 (rendered to one
decimal) as the projected peak temperature. -/
theorem C1_heat_wave_alert (sid : String) (p : ClimateProfile) (coin : ℚ) :
    ((∃ a ∈ alertsFor sid p coin, a.alert_type = "Heat Wave Warning") ↔
      38 < p.baseTemp) ∧
    ∀ a ∈ alertsFor sid p coin, a.alert_type = "Heat Wave Warning" →
      (a.severity = "extreme" ↔ 42 < p.baseTemp) ∧
      (a.severity = "high" ↔ ¬42 < p.baseTemp) ∧
      a.message = heatWaveMessage (p.baseTemp + 3) ∧
      (∃ pre post : String,
        a.message = pre ++ toFixed1 (p.baseTemp + 3) ++ post) ∧
      a.is_active = true := by
  constructor
  · constructor
    · rintro ⟨a, ha, htype⟩
      exact (heat_alert_characterization sid p coin a ha htype).1
    · intro h38
      exact ⟨_, heat_alert_mem sid p coin h38, rfl⟩
  · intro a ha htype
    obtain ⟨h38, rfl⟩ := heat_alert_characterization sid p coin a ha htype
    refine ⟨?_, ?_, rfl,
      ⟨"Heat wave conditions expected. Temperature may reach ",
        "Â°C. Stay hydrated and avoid direct sunlight.", rfl⟩, rfl⟩
    · by_cases h42 : 42 < p.baseTemp <;> simp [h42]
    · by_cases h42 : 42 < p.baseTemp <;> simp [h42]

/-- C9: every climate profile in the hard-coded table has baseTemp ≤ 32,
and every station seeded from the hard-coded list — including unrecognized
names falling back to the Pune profile — takes a profile with baseTemp
≤ 32, so the heat-wave branch is never taken and no seed run produces a
Heat Wave Warning alert. -/
theorem C9_no_heat_wave_from_seeded_profiles (name sid : String) (coin : ℚ) :
    (climateProfiles.all fun q => decide (q.2.baseTemp ≤ 32)) = true ∧
    (profileFor name).baseTemp ≤ 32 ∧
    (alertsFor sid (profileFor name) coin).filter
      (fun a => a.alert_type == "Heat Wave Warning") = [] :=
  ⟨by decide, profileFor_baseTemp_le name,
    no_heat_alert_of_le sid _ coin (profileFor_baseTemp_le name)⟩

/-- C4: a historical-generation run over the 5 seeded stations with the
7-day hourly window produces exactly 5 × 8 × 24 = 960 observation rows —
the day loop bound is inclusive, covering day indices 7 down to 0 (8
days) — and every station's historical series has 192 rows. -/
theorem C4_historical_row_count (now : ℤ) (ids : Fin 5 → String)
    (ρ : String → ℕ → ℕ → ℕ → ℝ) :
    dayList = [7, 6, 5, 4, 3, 2, 1, 0] ∧
    (seedObservations (seedStations ids) now ρ).length = 960 ∧
    ∀ (sid : String) (p : ClimateProfile) (ρ' : ℕ → ℕ → ℕ → ℝ),
      (historicalObs sid now p ρ').length = 192 := by
  refine ⟨by decide, ?_, fun sid p ρ' => historicalObs_length sid now p ρ'⟩
  simp [seedObservations, seedStations, historicalObs_length]

/-- C7 counterexample: a failing current-weather fetch is logged but
produces no toast notification, so the claim that every dashboard fetch
failure is surfaced as a transient user notification is false. -/
theorem C7_no_toast_on_weather_fetch_failure :
    (loadCurrentWeatherStep (Except.error "network error")
        ⟨[], "", none, false⟩).2.toasts = [] ∧
    (loadCurrentWeatherStep (Except.error "network error")
        ⟨[], "", none, false⟩).2.logs ≠ [] := by
  exact ⟨rfl, by simp [loadCurrentWeatherStep]⟩

/-- C7 (amended): on a failing fetch, the station-list handler logs the
error, shows a toast, and leaves the station list and selection at their
prior values (clearing only the loading flag); the current-weather handler
logs the error and leaves the whole state unchanged, but shows no toast. -/
theorem C7_fetch_failure_behaviour (e : String) (s : DashState) :
    (loadStationsStep (Except.error e) s).2.logs ≠ [] ∧
    (loadStationsStep (Except.error e) s).2.toasts ≠ [] ∧
    (loadStationsStep (Except.error e) s).1.stations = s.stations ∧
    (loadStationsStep (Except.error e) s).1.selectedStation = s.selectedStation ∧
    (loadStationsStep (Except.error e) s).1.currentWeather = s.currentWeather ∧
    (loadCurrentWeatherStep (Except.error e) s).1 = s ∧
    (loadCurrentWeatherStep (Except.error e) s).2.logs ≠ [] ∧
    (loadCurrentWeatherStep (Except.error e) s).2.toasts = [] := by
  refine ⟨by simp [loadStationsStep], by simp [loadStationsStep], rfl, rfl, rfl,
    rfl, by simp [loadCurrentWeatherStep], rfl⟩

/-- C8 counterexample: a pre-existing row whose id happens to be the
placeholder all-zero UUID survives the bulk delete, so the claim that
every invocation deletes every existing row is false as stated. -/
theorem C8_zero_id_row_survives :
    deleteNeq zeroUuid [⟨zeroUuid, "station-not-in-seed-list"⟩] ≠ [] ∧
    (⟨zeroUuid, "station-not-in-seed-list"⟩ : DbRow) ∈
      deleteNeq zeroUuid [⟨zeroUuid, "station-not-in-seed-list"⟩] := by
  constructor <;> decide

/-- C8 (amended): each bulk delete removes every row whose id differs from
the placeholder all-zero UUID, regardless of the station the row belongs
to; the seed run performs the four deletes first, in child-before-parent
order (alerts, predictions, data, stations), and only insert operations
follow them. -/
theorem C8_delete_order_and_scope (b : Bool) (tbl : List DbRow) (r : DbRow)
    (hid : r.id ≠ zeroUuid) :
    r ∉ deleteNeq zeroUuid tbl ∧
    (seedOps b).take 4 =
      [SeedOp.deleteNeqId Table.weather_alerts zeroUuid,
       SeedOp.deleteNeqId Table.weather_predictions zeroUuid,
       SeedOp.deleteNeqId Table.weather_data zeroUuid,
       SeedOp.deleteNeqId Table.weather_stations zeroUuid] ∧
    ∃ inserts : List SeedOp,
      seedOps b = (seedOps b).take 4 ++ inserts ∧
        inserts.all SeedOp.isInsert = true := by
  refine ⟨?_, by cases b <;> rfl, ?_⟩
  · intro hmem
    rw [deleteNeq, List.mem_filter] at hmem
    exact hid (by simpa using hmem.2)
  · cases b
    · exact ⟨[SeedOp.insertRows Table.weather_stations,
        SeedOp.insertRows Table.weather_data,
        SeedOp.insertRows Table.weather_predictions], by decide, by decide⟩
    · exact ⟨[SeedOp.insertRows Table.weather_stations,
        SeedOp.insertRows Table.weather_data,
        SeedOp.insertRows Table.weather_predictions,
        SeedOp.insertRows Table.weather_alerts], by decide, by decide⟩

/-- C2: every generated observation row has humidity in [20,95],
wind_speed ≥ 0 and precipitation ≥ 0, and every generated prediction row
has confidence in [75,98], for all stations, days, hours and all values of
the random source (each `Math.random()` draw lies in [0,1)). -/
theorem C2_generated_bounds (sid : String) (now : ℤ) (p : ClimateProfile)
    (ρ σ : ℕ → ℕ → ℕ → ℝ)
    (hρ : ∀ d h i, 0 ≤ ρ d h i ∧ ρ d h i < 1)
    (hσ : ∀ d h i, 0 ≤ σ d h i ∧ σ d h i < 1) :
    (∀ o ∈ historicalObs sid now p ρ,
      (20 : ℝ) ≤ o.humidity ∧ o.humidity ≤ 95 ∧
        0 ≤ o.wind_speed ∧ 0 ≤ o.precipitation) ∧
    ∀ q ∈ predictionsFor sid now p σ,
      (75 : ℝ) ≤ q.confidence ∧ q.confidence ≤ 98 := by
  constructor
  · intro o ho
    simp only [historicalObs, List.mem_flatMap, List.mem_map] at ho
    obtain ⟨day, -, hour, -, rfl⟩ := ho
    refine ⟨?_, ?_, ?_, ?_⟩
    · have h := (round2_clamp_mem (a := 20) (b := 95)
        (x := rawHumidity p hour (ρ day hour 1)) (by norm_num)).1
      simpa [mkObservation] using h
    · have h := (round2_clamp_mem (a := 20) (b := 95)
        (x := rawHumidity p hour (ρ day hour 1)) (by norm_num)).2
      simpa [mkObservation] using h
    · have h0 : (0 : ℝ) ≤ rawWindSpeed p (ρ day hour 4) (ρ day hour 5) :=
        le_max_right _ _
      have h := le_round2 (n := 0) (by simpa using h0)
      simpa [mkObservation] using h
    · have h0 : (0 : ℝ) ≤ rawPrecipitation p (ρ day hour 2) (ρ day hour 3) := by
        unfold rawPrecipitation
        split
        · linarith [(hρ day hour 3).1]
        · exact le_rfl
      have h := le_round2 (n := 0) (by simpa using h0)
      simpa [mkObservation] using h
  · intro q hq
    simp only [predictionsFor, List.mem_flatMap, List.mem_map] at hq
    obtain ⟨day, -, hour, -, rfl⟩ := hq
    constructor
    · have h := (round2_clamp_mem (a := 75) (b := 98)
        (x := rawConfidence day (σ day hour 3)) (by norm_num)).1
      simpa [mkPrediction] using h
    · have h := (round2_clamp_mem (a := 75) (b := 98)
        (x := rawConfidence day (σ day hour 3)) (by norm_num)).2
      simpa [mkPrediction] using h

/-- C2 witness: the bounds at a concrete station, start time and random
source (every draw 1/2). -/
theorem C2_generated_bounds_witness :
    (∀ d h i : ℕ,
      0 ≤ (fun _ _ _ => (1 : ℝ) / 2) d h i ∧
        (fun _ _ _ => (1 : ℝ) / 2) d h i < 1) ∧
    ((∀ o ∈ historicalObs "station-1" 0 mumbaiProfile (fun _ _ _ => (1 : ℝ) / 2),
        (20 : ℝ) ≤ o.humidity ∧ o.humidity ≤ 95 ∧
          0 ≤ o.wind_speed ∧ 0 ≤ o.precipitation) ∧
      ∀ q ∈ predictionsFor "station-1" 0 mumbaiProfile (fun _ _ _ => (1 : ℝ) / 2),
        (75 : ℝ) ≤ q.confidence ∧ q.confidence ≤ 98) := by
  have hhalf : ∀ d h i : ℕ,
      0 ≤ (fun _ _ _ => (1 : ℝ) / 2) d h i ∧
        (fun _ _ _ => (1 : ℝ) / 2) d h i < 1 := fun _ _ _ => by norm_num
  exact ⟨hhalf,
    C2_generated_bounds "station-1" 0 mumbaiProfile _ _ hhalf hhalf⟩

/-- C3: the generated observation temperature (the `temp` local of line
223) equals baseTemp + sin(2π·(hour−6)/24)·tempRange + u for a noise term
u = 2·(draw − 1/2) lying in [−1,+1] whenever the draw lies in [0,1); the
persisted field is that value rounded to 2 decimals. -/
theorem C3_observation_temperature (sid : String) (now : ℤ)
    (p : ClimateProfile) (day hour : ℕ) (r : ℕ → ℝ)
    (h0 : 0 ≤ r 0) (h1 : r 0 < 1) :
    ∃ u : ℝ, -1 ≤ u ∧ u ≤ 1 ∧
      rawTemp p hour (r 0) =
        (p.baseTemp : ℝ) +
          Real.sin (2 * Real.pi * (((hour : ℝ) - 6) / 24)) * (p.tempRange : ℝ) + u ∧
      (mkObservation sid now p day hour r).temperature =
        round2 (rawTemp p hour (r 0)) := by
  refine ⟨2 * r 0 - 1, by linarith, by linarith, ?_, rfl⟩
  unfold rawTemp hourFactor
  rw [show ((hour : ℝ) - 6) / 24 * Real.pi * 2 =
    2 * Real.pi * (((hour : ℝ) - 6) / 24) by ring]
  ring

/-- C3 witness: the temperature decomposition at a concrete slot and draw. -/
theorem C3_observation_temperature_witness :
    (0 : ℝ) ≤ (fun _ => (1 : ℝ) / 2) 0 ∧ (fun _ => (1 : ℝ) / 2) 0 < 1 ∧
    ∃ u : ℝ, -1 ≤ u ∧ u ≤ 1 ∧
      rawTemp mumbaiProfile 13 ((fun _ => (1 : ℝ) / 2) 0) =
        (mumbaiProfile.baseTemp : ℝ) +
          Real.sin (2 * Real.pi * ((((13 : ℕ) : ℝ) - 6) / 24)) *
            (mumbaiProfile.tempRange : ℝ) + u ∧
      (mkObservation "station-1" 0 mumbaiProfile 7 13
          (fun _ => (1 : ℝ) / 2)).temperature =
        round2 (rawTemp mumbaiProfile 13 ((fun _ => (1 : ℝ) / 2) 0)) :=
  ⟨by norm_num, by norm_num,
    C3_observation_temperature "station-1" 0 mumbaiProfile 7 13
      (fun _ => (1 : ℝ) / 2) (by norm_num) (by norm_num)⟩

/-- C10: the predicted temperature contains no random term: for a given
profile and (day, hour) slot it is exactly the rounded value of
baseTemp + sin(2π·(hour−6)/24)·tempRange + 0.5·day, so two generator runs
with arbitrary, possibly different random sources produce identical
predicted_temp values in corresponding prediction rows. -/
theorem C10_predicted_temp_deterministic (sid : String) (now : ℤ)
    (p : ClimateProfile) (ρ₁ ρ₂ : ℕ → ℕ → ℕ → ℝ) :
    (predictionsFor sid now p ρ₁).map (fun q => q.predicted_temp) =
      (predictionsFor sid now p ρ₂).map (fun q => q.predicted_temp) ∧
    ∀ (day hour : ℕ) (r : ℕ → ℝ),
      (mkPrediction sid now p day hour r).predicted_temp =
        round2 ((p.baseTemp : ℝ) +
          Real.sin (2 * Real.pi * (((hour : ℝ) - 6) / 24)) * (p.tempRange : ℝ) +
          0.5 * (day : ℝ)) := by
  constructor
  · simp [predictionsFor, List.map_flatMap, List.map_map, Function.comp_def,
      mkPrediction]
  · intro day hour r
    show round2 (rawPredictedTemp p day hour) = _
    refine congrArg round2 ?_
    unfold rawPredictedTemp hourFactor
    rw [show ((hour : ℝ) - 6) / 24 * Real.pi * 2 =
      2 * Real.pi * (((hour : ℝ) - 6) / 24) by ring]
    ring

/-- C5: within one station, the historical observations are emitted in
strictly increasing timestamp order (oldest to newest): each emitted
observation's timestamp is strictly less than the next one's, given the
timestamp formula now − (day·24 + (23−hour)) hours over day 7..0 and
hour 0..23. -/
theorem C5_timestamps_strictly_increasing (sid : String) (now : ℤ)
    (p : ClimateProfile) (ρ : ℕ → ℕ → ℕ → ℝ) :
    List.Chain' (· < ·)
      ((historicalObs sid now p ρ).map fun o => o.timestampMs) := by
  have hmap : ((historicalObs sid now p ρ).map fun o => o.timestampMs) =
      offsetsZ.map fun o => now - o * 3600000 := by
    unfold historicalObs offsetsZ
    rw [List.map_flatMap, List.map_flatMap]
    refine congrArg (List.flatMap dayList) (funext fun day => ?_)
    rw [List.map_map, List.map_map]
    refine congrArg (fun F => List.map F (List.range 24)) (funext fun hour => ?_)
    simp [mkObservation, obsTimestamp, Function.comp_def]
  rw [hmap, List.chain'_map]
  have hoff : List.Chain' (fun a b : ℤ => b < a) offsetsZ := by
    rw [List.chain'_iff_pairwise]
    decide
  exact hoff.imp fun a b hab => by omega

/-- C6: the generated confidence is clamp(95 − 3·day + u, 75, 98), rounded
to 2 decimals, with noise u = 4·(draw − 1/2) in [−2,+2] for a draw in
[0,1); with the noise held at zero (draw 1/2) the clamp is inactive for
day ≤ 4 and the confidence is exactly 95 − 3·day, monotonically
non-increasing from 95 at day 0 to 83 at day 4. -/
theorem C6_confidence_decay (sid : String) (now : ℤ) (p : ClimateProfile)
    (day hour : ℕ) (r : ℕ → ℝ) (h0 : 0 ≤ r 3) (h1 : r 3 < 1) :
    (∃ u : ℝ, -2 ≤ u ∧ u ≤ 2 ∧
      (mkPrediction sid now p day hour r).confidence =
        round2 (max 75 (min 98 (95 - 3 * (day : ℝ) + u)))) ∧
    (∀ d : ℕ, d ≤ 4 →
      (mkPrediction sid now p d hour (fun _ => 1 / 2)).confidence =
        95 - 3 * (d : ℝ)) ∧
    ∀ d e : ℕ, d ≤ e → e ≤ 4 →
      (mkPrediction sid now p e hour (fun _ => 1 / 2)).confidence ≤
        (mkPrediction sid now p d hour (fun _ => 1 / 2)).confidence := by
  have hval : ∀ d : ℕ, d ≤ 4 →
      (mkPrediction sid now p d hour (fun _ => 1 / 2)).confidence =
        95 - 3 * (d : ℝ) := by
    intro d hd
    show round2 (max 75 (min 98 (rawConfidence d ((1 : ℝ) / 2)))) = _
    have hdr : (d : ℝ) ≤ 4 := by exact_mod_cast hd
    have hraw : rawConfidence d ((1 : ℝ) / 2) = 95 - 3 * (d : ℝ) := by
      unfold rawConfidence
      ring
    rw [hraw, min_eq_right (by linarith), max_eq_right (by linarith)]
    have hcast : (95 : ℝ) - 3 * (d : ℝ) = ((95 - 3 * (d : ℤ) : ℤ) : ℝ) := by
      push_cast
      ring
    rw [hcast, round2_intCast]
  refine ⟨?_, hval, ?_⟩
  · refine ⟨4 * (r 3 - 1 / 2), by linarith, by linarith, ?_⟩
    show round2 (max 75 (min 98 (rawConfidence day (r 3)))) = _
    refine congrArg round2 (congrArg (max 75) (congrArg (min 98) ?_))
    unfold rawConfidence
    ring
  · intro d e hde he4
    rw [hval d (le_trans hde he4), hval e he4]
    have : (d : ℝ) ≤ (e : ℝ) := by exact_mod_cast hde
    linarith

/-- C6 witness: the confidence decomposition and zero-noise decay at a
concrete slot and draw. -/
theorem C6_confidence_decay_witness :
    (0 : ℝ) ≤ (fun _ => (1 : ℝ) / 2) 3 ∧ (fun _ => (1 : ℝ) / 2) 3 < 1 ∧
    ((∃ u : ℝ, -2 ≤ u ∧ u ≤ 2 ∧
      (mkPrediction "station-1" 0 mumbaiProfile 2 6
          (fun _ => (1 : ℝ) / 2)).confidence =
        round2 (max 75 (min 98 (95 - 3 * ((2 : ℕ) : ℝ) + u)))) ∧
    (∀ d : ℕ, d ≤ 4 →
      (mkPrediction "station-1" 0 mumbaiProfile d 6
          (fun _ => 1 / 2)).confidence = 95 - 3 * (d : ℝ)) ∧
    ∀ d e : ℕ, d ≤ e → e ≤ 4 →
      (mkPrediction "station-1" 0 mumbaiProfile e 6
          (fun _ => 1 / 2)).confidence ≤
        (mkPrediction "station-1" 0 mumbaiProfile d 6
          (fun _ => 1 / 2)).confidence) :=
  ⟨by norm_num, by norm_num,
    C6_confidence_decay "station-1" 0 mumbaiProfile 2 6
      (fun _ => (1 : ℝ) / 2) (by norm_num) (by norm_num)⟩

/-- C8 witness: the amended delete property at a concrete row and table. -/
theorem C8_delete_order_and_scope_witness :
    ("aaaa1111" : String) ≠ zeroUuid ∧
    (⟨"aaaa1111", "Mumbai"⟩ : DbRow) ∉
      deleteNeq zeroUuid [⟨"aaaa1111", "Mumbai"⟩] :=
  ⟨by decide, (C8_delete_order_and_scope true [⟨"aaaa1111", "Mumbai"⟩]
    ⟨"aaaa1111", "Mumbai"⟩ (by decide)).1⟩

end TemperaPulse
